import Mathlib

/-!
Shallow embedding of the shrimp-farm dashboard (`app.py`).

The program is a single-page dashboard: it validates that an uploaded
tabular dataset has the four required columns (line 80), aggregates the
rows per farm with a SQL query (lines 81-92), renders a chart, formats a
rule-based commentary from the first and last summary rows (lines
105-113), produces an AI commentary (lines 35-59), and maintains a chat
transcript in session state (lines 127-153).

Numeric cell values are modelled as integers (`Int`): the claims under
verification only involve exact sums and differences, which the dataframe
engine computes exactly on integral inputs.
-/

/-- One input row of the uploaded dataset, restricted to the four required
fields `Tambak`, `Produksi_kg`, `Biaya`, `Pendapatan` (extra columns are
never read by the program). -/
structure Record where
  tambak : String
  produksi_kg : Int
  biaya : Int
  pendapatan : Int
deriving DecidableEq, Repr

/-- One output row of the aggregation query (lines 81-92): the grouped
totals and the derived net profit for one farm. -/
structure FarmSummary where
  tambak : String
  total_produksi : Int
  total_biaya : Int
  total_pendapatan : Int
  laba_bersih : Int
deriving DecidableEq, Repr

/-- The summary row the query produces for the group keyed by `t`:
`SUM(Produksi_kg)`, `SUM(Biaya)`, `SUM(Pendapatan)` over the rows whose
`Tambak` equals `t`, and `Laba_Bersih = SUM(Pendapatan) - SUM(Biaya)`. -/
def summarize (rows : List Record) (t : String) : FarmSummary :=
  let g := rows.filter (fun r => r.tambak == t)
  { tambak := t
    total_produksi := (g.map Record.produksi_kg).sum
    total_biaya := (g.map Record.biaya).sum
    total_pendapatan := (g.map Record.pendapatan).sum
    laba_bersih := (g.map Record.pendapatan).sum - (g.map Record.biaya).sum }

/-- The `ORDER BY Laba_Bersih DESC` relation: `a` may precede `b` when the
net profit of `a` is at least that of `b`. -/
def profitDesc (a b : FarmSummary) : Prop := b.laba_bersih ≤ a.laba_bersih

instance : DecidableRel profitDesc := fun a b =>
  inferInstanceAs (Decidable (b.laba_bersih ≤ a.laba_bersih))

instance : IsTotal FarmSummary profitDesc :=
  ⟨fun a b => le_total b.laba_bersih a.laba_bersih⟩

instance : IsTrans FarmSummary profitDesc :=
  ⟨fun _ _ _ hab hbc => le_trans hbc hab⟩

/-- The aggregation query of lines 81-92: `GROUP BY Tambak` produces one
group per distinct value of the `Tambak` column, each group is summed by
`summarize`, and the result is ordered by `Laba_Bersih` descending. -/
def summary (rows : List Record) : List FarmSummary :=
  List.insertionSort profitDesc
    ((rows.map Record.tambak).dedup.map (summarize rows))

/-- The four column names required at line 80. -/
def requiredCols : List String := ["Tambak", "Produksi_kg", "Biaya", "Pendapatan"]

/-- Line 80: the check that the required column set is a subset of the
columns of the uploaded dataframe. -/
def schemaOk (cols : List String) : Bool :=
  requiredCols.all (fun c => cols.contains c)

section Formatting

/-- Thousands grouping of a reversed digit list: after every third digit a
comma is inserted, as the Python format specifier with a comma does. -/
def commaRev : List Char → Nat → List Char
  | [], _ => []
  | c :: cs, 3 => ',' :: c :: commaRev cs 1
  | c :: cs, k => c :: commaRev cs (k + 1)

/-- Decimal rendering of a natural number with thousands separators. -/
def formatNat (n : Nat) : String :=
  ⟨(commaRev (Nat.toDigits 10 n).reverse 0).reverse⟩

/-- Rendering of an integer the way the format specifier of lines 109-111
renders a whole monetary amount: thousands separators, no decimals, a
leading minus sign when negative. -/
def formatInt : Int → String
  | .ofNat n => formatNat n
  | .negSucc n => "-" ++ formatNat (n + 1)

end Formatting

/-- The f-string of lines 107-112, as a function of the dataframe rows
`summary.iloc[0]` (best) and `summary.iloc[-1]` (worst). -/
def commentaryText (top bottom : FarmSummary) : String :=
  "\n        🔍 **Insights:**\n        - Tambak paling menguntungkan: **"
    ++ top.tambak ++ "** dengan laba **Rp " ++ formatInt top.laba_bersih
    ++ "**.\n        - Tambak dengan laba terendah: **"
    ++ bottom.tambak ++ "** dengan laba **Rp " ++ formatInt bottom.laba_bersih
    ++ "**.\n        - Selisih laba antara keduanya: **Rp "
    ++ formatInt (top.laba_bersih - bottom.laba_bersih)
    ++ "**.\n        "

/-- Lines 105-113: `top = summary.iloc[0]`, `bottom = summary.iloc[-1]`,
then the commentary template. On an empty summary `iloc[0]` raises an
IndexError; that uncaught failure is modelled by `none`. -/
def ruleCommentary : List FarmSummary → Option String
  | [] => none
  | top :: rest => some (commentaryText top (rest.getLastD top))

/-- One entry of a messages list sent to the completion service, and one
entry of `st.session_state.chat_history`. -/
structure ChatTurn where
  role : String
  content : String
deriving DecidableEq, Repr

/-- The completion service behind `client.chat.completions.create`
(the model identifier and temperature are fixed at every call site): a
response text, or the text of the raised exception. -/
structure CompletionService where
  respond : List ChatTurn → Except String String

/-- The plain-text serialization `summary_df.to_string(index=False)` of
line 40: a header line followed by one line per summary row. Column
padding of the dataframe printer is not reproduced; no claim depends on
the exact spacing. -/
def textSummary (s : List FarmSummary) : String :=
  String.intercalate "\n"
    ("Tambak Total_Produksi Total_Biaya Total_Pendapatan Laba_Bersih" ::
      s.map (fun r =>
        r.tambak ++ " " ++ toString r.total_produksi ++ " "
          ++ toString r.total_biaya ++ " " ++ toString r.total_pendapatan
          ++ " " ++ toString r.laba_bersih))

/-- The prompt template of lines 41-49 with the serialized summary
interpolated. -/
def aiPrompt (s : List FarmSummary) : String :=
  "\n    Berikut data hasil produksi tambak udang:\n    "
    ++ textSummary s
    ++ "\n\n    Buat analisis singkat dalam bahasa Indonesia:\n"
    ++ "    - Tambak mana yang paling efisien\n"
    ++ "    - Tambak mana yang butuh perhatian\n"
    ++ "    - Insight strategis singkat\n    "

/-- The fixed notice returned at line 38 when no API key is configured. -/
def inactiveNotice : String := "⚠️ AI Commentary tidak aktif (API Key belum diatur)."

/-- Lines 35-59, `generate_ai_commentary`. The second component counts
the completion-service calls the function performs: the `client is None`
branch returns the fixed notice before any request is built, so it
performs zero calls; the other branch performs exactly one, returning the
response on success and the formatted error string on an exception. -/
def generate_ai_commentary (client : Option CompletionService)
    (summary_df : List FarmSummary) : String × Nat :=
  match client with
  | none => (inactiveNotice, 0)
  | some c =>
    match c.respond [⟨"user", aiPrompt summary_df⟩] with
    | .ok text => (text, 1)
    | .error e => ("❌ Error AI Commentary: " ++ e, 1)

/-- The transcript held in `st.session_state.chat_history`. -/
abbrev Transcript := List ChatTurn

/-- The system priming turn of line 129. -/
def systemTurn : ChatTurn :=
  ⟨"system", "Anda adalah konsultan tambak udang yang menganalisis data keuangan dan produksi."⟩

/-- Lines 127-131: when the session holds no transcript yet, seed it with
the system turn and an assistant turn carrying the AI commentary text;
when a transcript already exists, leave it untouched. -/
def seedChat (history : Option Transcript) (ai_text : String) : Transcript :=
  match history with
  | none => [systemTurn, ⟨"assistant", ai_text⟩]
  | some h => h

/-- Lines 136-153: a submitted user question is appended to the
transcript; with a configured client the whole transcript is sent to the
service, a successful answer is appended as an assistant turn, and a
raised exception only produces an inline error message; without a client
a warning is shown. The second component is the displayed error or
warning, if any. -/
def handleUserMessage (client : Option CompletionService)
    (history : Transcript) (question : String) : Transcript × Option String :=
  let h1 := history ++ [⟨"user", question⟩]
  match client with
  | some c =>
    match c.respond h1 with
    | .ok answer => (h1 ++ [⟨"assistant", answer⟩], none)
    | .error e => (h1, some ("❌ Error chat: " ++ e))
  | none => (h1, some "AI chat tidak aktif — tambahkan GROQ_API_KEY di .env")

/-- The warning text of line 156. -/
def schemaWarning : String :=
  "⚠️ Pastikan kolom data Anda berisi: Tambak, Produksi_kg, Biaya, Pendapatan"

/-- Outcome of one render cycle for an uploaded file. -/
inductive RenderResult where
  /-- Line 156: the schema warning; nothing downstream runs. -/
  | warning (msg : String)
  /-- An uncaught exception aborts the render (the `iloc[0]` IndexError
  on an empty summary). -/
  | failure (msg : String)
  /-- The full dashboard: summary, rule-based commentary, AI commentary,
  and the session transcript after seeding. -/
  | dashboard (s : List FarmSummary) (rule : String) (ai : String) (chat : Transcript)

/-- Lines 81-134, the body guarded by the schema check: aggregate,
render the rule-based commentary from `iloc[0]` and `iloc[-1]`, produce
the AI commentary, seed the chat transcript. -/
def runDashboard (client : Option CompletionService) (rows : List Record)
    (chat : Option Transcript) : RenderResult :=
  let s := summary rows
  match ruleCommentary s with
  | none => .failure "IndexError: single positional indexer is out-of-bounds"
  | some rule =>
    let ai := (generate_ai_commentary client s).1
    .dashboard s rule ai (seedChat chat ai)

/-- Lines 80-156: the schema check of line 80 decides between the
dashboard body and the warning of line 156. -/
def renderUpload (client : Option CompletionService) (cols : List String)
    (rows : List Record) (chat : Option Transcript) : RenderResult :=
  if schemaOk cols then runDashboard client rows chat
  else .warning schemaWarning

/-- The two input rows of the end-to-end scenario. -/
def demoRows : List Record :=
  [⟨"A", 100, 50, 200⟩, ⟨"B", 80, 60, 90⟩]

/-- The summary produced by the aggregation query is a permutation of the
per-group summaries before the `ORDER BY`. -/
lemma summary_perm (rows : List Record) :
    (summary rows).Perm ((rows.map Record.tambak).dedup.map (summarize rows)) :=
  List.perm_insertionSort profitDesc _

/-- Filtering a duplicate-free list for one of its members yields exactly
that member. -/
lemma filter_beq_singleton {l : List String} {t : String}
    (hn : l.Nodup) (ht : t ∈ l) : l.filter (fun x => x == t) = [t] := by
  induction l with
  | nil => cases ht
  | cons a tl ih =>
    rcases List.nodup_cons.mp hn with ⟨ha, htl⟩
    by_cases hat : a = t
    · subst hat
      have hnil : tl.filter (fun x => x == a) = [] := by
        refine List.filter_eq_nil_iff.mpr (fun b hb => ?_)
        simp only [beq_iff_eq]
        rintro rfl
        exact ha hb
      simp [List.filter_cons, hnil]
    · have hmem : t ∈ tl := (List.mem_cons.mp ht).resolve_left (fun e => hat e.symm)
      simp [List.filter_cons, hat, ih htl hmem]

/-- Claim C1: on any nonempty record set, the Aggregator yields a nonempty
summary with one row per distinct farm (the summary keys are a permutation
of the distinct `Tambak` values of the input), the sequence is sorted by
net profit non-increasing, and every row satisfies
`Laba_Bersih = Total_Pendapatan - Total_Biaya` exactly. -/
theorem C1_aggregator_summary (rows : List Record) (h : rows ≠ []) :
    summary rows ≠ [] ∧
    ((summary rows).map FarmSummary.tambak).Perm (rows.map Record.tambak).dedup ∧
    (summary rows).Sorted profitDesc ∧
    ∀ s ∈ summary rows, s.laba_bersih = s.total_pendapatan - s.total_biaya := by
  have hperm := summary_perm rows
  refine ⟨?_, ?_, ?_, ?_⟩
  · intro hnil
    have hpre := (hnil ▸ hperm.symm).eq_nil
    rw [List.map_eq_nil_iff, List.dedup_eq_nil, List.map_eq_nil_iff] at hpre
    exact h hpre
  · have hmap := hperm.map FarmSummary.tambak
    rwa [List.map_map,
      show FarmSummary.tambak ∘ summarize rows = id from funext fun _ => rfl,
      List.map_id] at hmap
  · exact List.sorted_insertionSort profitDesc _
  · intro s hs
    obtain ⟨t, _, rfl⟩ := List.mem_map.mp (hperm.mem_iff.mp hs)
    rfl

/-- Claim C1, instantiated at the concrete two-row scenario input. -/
theorem C1_aggregator_summary_witness :
    summary demoRows ≠ [] ∧
    ((summary demoRows).map FarmSummary.tambak).Perm
      (demoRows.map Record.tambak).dedup ∧
    (summary demoRows).Sorted profitDesc ∧
    ∀ s ∈ summary demoRows, s.laba_bersih = s.total_pendapatan - s.total_biaya :=
  C1_aggregator_summary demoRows (by decide)

/-- Claim C2: for any farm identifier occurring in the input, the summary
holds exactly one row for it, and its totals are the sums of
`Produksi_kg`, `Biaya` and `Pendapatan` over exactly the input rows whose
`Tambak` equals that identifier. -/
theorem C2_aggregator_group_sums (rows : List Record) (t : String)
    (h : t ∈ rows.map Record.tambak) :
    (summary rows).filter (fun s => s.tambak == t) =
      [{ tambak := t
         total_produksi :=
           ((rows.filter (fun r => r.tambak == t)).map Record.produksi_kg).sum
         total_biaya :=
           ((rows.filter (fun r => r.tambak == t)).map Record.biaya).sum
         total_pendapatan :=
           ((rows.filter (fun r => r.tambak == t)).map Record.pendapatan).sum
         laba_bersih :=
           ((rows.filter (fun r => r.tambak == t)).map Record.pendapatan).sum
             - ((rows.filter (fun r => r.tambak == t)).map Record.biaya).sum }] := by
  have hfil := (summary_perm rows).filter (fun s => s.tambak == t)
  have heq :
      ((rows.map Record.tambak).dedup.map (summarize rows)).filter
          (fun s => s.tambak == t) = [summarize rows t] := by
    rw [List.filter_map,
      show ((fun s => s.tambak == t) ∘ summarize rows) = (fun x => x == t) from
        funext fun _ => rfl,
      filter_beq_singleton (List.nodup_dedup _) (List.mem_dedup.mpr h)]
    rfl
  rw [heq] at hfil
  exact List.perm_singleton.mp hfil

/-- Claim C2, instantiated at farm `A` of the concrete scenario input. -/
theorem C2_aggregator_group_sums_witness :
    (summary demoRows).filter (fun s => s.tambak == "A") =
      [{ tambak := "A"
         total_produksi :=
           ((demoRows.filter (fun r => r.tambak == "A")).map Record.produksi_kg).sum
         total_biaya :=
           ((demoRows.filter (fun r => r.tambak == "A")).map Record.biaya).sum
         total_pendapatan :=
           ((demoRows.filter (fun r => r.tambak == "A")).map Record.pendapatan).sum
         laba_bersih :=
           ((demoRows.filter (fun r => r.tambak == "A")).map Record.pendapatan).sum
             - ((demoRows.filter (fun r => r.tambak == "A")).map Record.biaya).sum }] :=
  C2_aggregator_group_sums demoRows "A" (by decide)

/-- Claim C3: the line-80 check rejects a dataset whose columns miss any
one of the four required fields — covering all four single-field-missing
cases — emitting only the warning, and a column superset of the four
passes the very same rows into the dashboard body unchanged. -/
theorem C3_schema_validator (client : Option CompletionService)
    (cols : List String) (rows : List Record) (chat : Option Transcript) :
    ((∃ c ∈ requiredCols, c ∉ cols) →
      renderUpload client cols rows chat = .warning schemaWarning) ∧
    ((∀ c ∈ requiredCols, c ∈ cols) →
      renderUpload client cols rows chat = runDashboard client rows chat) := by
  constructor
  · rintro ⟨c, hc, hnot⟩
    cases hb : schemaOk cols with
    | false => simp [renderUpload, hb]
    | true =>
      exfalso
      rw [schemaOk, List.all_eq_true] at hb
      exact hnot (by simpa using hb c hc)
  · intro hall
    have hok : schemaOk cols = true := by
      simp only [schemaOk, List.all_eq_true]
      intro c hc
      simpa using hall c hc
    simp [renderUpload, hok]

/-- Claim C3, instantiated: dropping `Pendapatan` triggers the warning,
and a five-column superset passes the scenario rows through. -/
theorem C3_schema_validator_witness :
    renderUpload none ["Tambak", "Produksi_kg", "Biaya"] demoRows none
      = .warning schemaWarning ∧
    renderUpload none ["Tambak", "Produksi_kg", "Biaya", "Pendapatan", "Lokasi"]
        demoRows none
      = runDashboard none demoRows none :=
  ⟨(C3_schema_validator none _ demoRows none).1 ⟨"Pendapatan", by decide, by decide⟩,
   (C3_schema_validator none _ demoRows none).2 (by decide)⟩

/-- Claim C4: on any nonempty summary the rule-based commentary is the
fixed template around the first row (best) and last row (worst) — its text
contains the best farm identifier and net profit, the worst farm
identifier and net profit, and the difference best minus worst — and on
the concrete end-to-end scenario it reports best `A` with 150, worst `B`
with 30, and difference 120. -/
theorem C4_rule_narrator :
    (∀ (top : FarmSummary) (rest : List FarmSummary),
      ruleCommentary (top :: rest) = some (commentaryText top (rest.getLastD top)) ∧
      ∃ s₁ s₂ s₃ s₄ s₅ s₆ : String,
        commentaryText top (rest.getLastD top) =
          s₁ ++ top.tambak ++ s₂ ++ formatInt top.laba_bersih ++ s₃
            ++ (rest.getLastD top).tambak ++ s₄
            ++ formatInt (rest.getLastD top).laba_bersih ++ s₅
            ++ formatInt (top.laba_bersih - (rest.getLastD top).laba_bersih) ++ s₆) ∧
    summary demoRows = [⟨"A", 100, 50, 200, 150⟩, ⟨"B", 80, 60, 90, 30⟩] ∧
    ruleCommentary (summary demoRows)
      = some (commentaryText ⟨"A", 100, 50, 200, 150⟩ ⟨"B", 80, 60, 90, 30⟩) ∧
    formatInt (150 : Int) = "150" ∧ formatInt (30 : Int) = "30" ∧
    formatInt ((150 : Int) - 30) = "120" := by
  refine ⟨fun top rest => ⟨rfl, _, _, _, _, _, _, rfl⟩, by decide, rfl,
    by decide, by decide, by decide⟩

/-- Relational semantics of the query of lines 81-92, keeping exactly
what the SQL engine guarantees and no more: `GROUP BY Tambak` yields one
summary row per distinct farm in an unspecified order, and
`ORDER BY Laba_Bersih DESC` sorts by net profit non-increasing with no
tiebreaker, so every ordering of rows tied on net profit is admissible.
Each run of the query may return any admissible list. -/
def AdmissibleResult (rows : List Record) (out : List FarmSummary) : Prop :=
  out.Perm ((rows.map Record.tambak).dedup.map (summarize rows)) ∧
    out.Sorted profitDesc

/-- Two farms tied on net profit, both 10. -/
def tiedRows : List Record := [⟨"X", 10, 5, 15⟩, ⟨"Y", 20, 7, 17⟩]

/-- Two sorted permutations of each other whose net profits are pairwise
distinct are equal. -/
lemma sorted_perm_nodup_eq {l₁ l₂ : List FarmSummary} (hp : l₁.Perm l₂)
    (hs₁ : l₁.Sorted profitDesc) (hs₂ : l₂.Sorted profitDesc)
    (hn : (l₁.map FarmSummary.laba_bersih).Nodup) : l₁ = l₂ := by
  induction l₁ generalizing l₂ with
  | nil => exact hp.nil_eq
  | cons a t₁ ih =>
    cases l₂ with
    | nil => exact absurd hp.symm.nil_eq (by simp)
    | cons b t₂ =>
      have hnc : a.laba_bersih ∉ t₁.map FarmSummary.laba_bersih ∧
          (t₁.map FarmSummary.laba_bersih).Nodup :=
        List.nodup_cons.mp (by simpa using hn)
      have hab : a = b := by
        by_contra hne
        have haT : a ∈ t₂ :=
          (List.mem_cons.mp (hp.mem_iff.mp (List.mem_cons_self a t₁))).resolve_left hne
        have hbT : b ∈ t₁ :=
          (List.mem_cons.mp (hp.symm.mem_iff.mp
            (List.mem_cons_self b t₂))).resolve_left (fun e => hne e.symm)
        have h1 : b.laba_bersih ≤ a.laba_bersih := (List.pairwise_cons.mp hs₁).1 b hbT
        have h2 : a.laba_bersih ≤ b.laba_bersih := (List.pairwise_cons.mp hs₂).1 a haT
        exact hnc.1 (le_antisymm h2 h1 ▸
          List.mem_map_of_mem FarmSummary.laba_bersih hbT)
      subst hab
      rw [ih hp.cons_inv hs₁.of_cons hs₂.of_cons hnc.2]

/-- Any two admissible outputs of the query on the same input list the
same net profits in the same order. -/
lemma admissible_profits_eq {rows : List Record} {o₁ o₂ : List FarmSummary}
    (h₁ : AdmissibleResult rows o₁) (h₂ : AdmissibleResult rows o₂) :
    o₁.map FarmSummary.laba_bersih = o₂.map FarmSummary.laba_bersih := by
  haveI : IsAntisymm Int (fun a b => b ≤ a) :=
    ⟨fun _ _ hab hba => le_antisymm hba hab⟩
  refine List.eq_of_perm_of_sorted (r := fun a b => b ≤ a)
    ((h₁.1.trans h₂.1.symm).map _) ?_ ?_
  · exact List.pairwise_map.mpr h₁.2
  · exact List.pairwise_map.mpr h₂.2

/-- Claim C5 is false of the query as written: on an input with two
farms tied on net profit, both orders of the tied rows are admissible
outputs of the query — nothing in the `ORDER BY` pins the tie order, the
`GROUP BY` pins no pre-sort order, and the two admissible outputs
differ, so repeated runs need not agree on the tied rows. -/
theorem C5_tie_order_not_pinned :
    AdmissibleResult tiedRows
      [⟨"X", 10, 5, 15, 10⟩, ⟨"Y", 20, 7, 17, 10⟩] ∧
    AdmissibleResult tiedRows
      [⟨"Y", 20, 7, 17, 10⟩, ⟨"X", 10, 5, 15, 10⟩] ∧
    ([⟨"X", 10, 5, 15, 10⟩, ⟨"Y", 20, 7, 17, 10⟩] : List FarmSummary) ≠
      [⟨"Y", 20, 7, 17, 10⟩, ⟨"X", 10, 5, 15, 10⟩] :=
  ⟨⟨by decide, by decide⟩, ⟨by decide, by decide⟩, by decide⟩

/-- Claim C5 as amended: every run of the query returns an admissible
result (the deterministic reimplementation `summary` is one), any two
admissible outputs on the same input agree as multisets and list
identical net-profit sequences, and when no two summary rows tie on net
profit the admissible output is unique — repeated runs then return the
identical sequence. Only the relative order of tied rows is left open. -/
theorem C5_aggregator_runs_agree (rows : List Record) (o₁ o₂ : List FarmSummary)
    (h₁ : AdmissibleResult rows o₁) (h₂ : AdmissibleResult rows o₂) :
    AdmissibleResult rows (summary rows) ∧
    o₁.Perm o₂ ∧
    o₁.map FarmSummary.laba_bersih = o₂.map FarmSummary.laba_bersih ∧
    ((o₁.map FarmSummary.laba_bersih).Nodup → o₁ = o₂) :=
  ⟨⟨summary_perm rows, List.sorted_insertionSort profitDesc _⟩,
    h₁.1.trans h₂.1.symm,
    admissible_profits_eq h₁ h₂,
    fun hn => sorted_perm_nodup_eq (h₁.1.trans h₂.1.symm) h₁.2 h₂.2 hn⟩

/-- Claim C5 as amended, instantiated at the distinct-profit scenario
rows: the computed summary and an explicitly given admissible list are
forced to agree. -/
theorem C5_aggregator_runs_agree_witness :
    AdmissibleResult demoRows (summary demoRows) ∧
    (summary demoRows).Perm [⟨"A", 100, 50, 200, 150⟩, ⟨"B", 80, 60, 90, 30⟩] ∧
    (summary demoRows).map FarmSummary.laba_bersih =
      ([⟨"A", 100, 50, 200, 150⟩, ⟨"B", 80, 60, 90, 30⟩] : List FarmSummary).map
        FarmSummary.laba_bersih ∧
    (((summary demoRows).map FarmSummary.laba_bersih).Nodup →
      summary demoRows = [⟨"A", 100, 50, 200, 150⟩, ⟨"B", 80, 60, 90, 30⟩]) :=
  C5_aggregator_runs_agree demoRows (summary demoRows)
    [⟨"A", 100, 50, 200, 150⟩, ⟨"B", 80, 60, 90, 30⟩]
    ⟨by decide, by decide⟩ ⟨by decide, by decide⟩

/-- Claim C6 (refuting evaluation): on a validated dataset with zero data
rows the summary is empty, and the rule-based narrator of lines 105-106
indexes the first element of the empty frame — the render cycle fails
with an uncaught IndexError instead of handling the empty sequence. -/
theorem C6_empty_summary_out_of_bounds :
    summary [] = [] ∧ ruleCommentary [] = none ∧
    runDashboard none [] none
      = .failure "IndexError: single positional indexer is out-of-bounds" :=
  ⟨rfl, rfl, rfl⟩

/-- Claim C7: on a summary with exactly one farm, the commentary template
is filled with that same row as both best and worst — identical
identifiers — and the reported difference is the rendering of zero. -/
theorem C7_single_farm (x : FarmSummary) :
    ruleCommentary [x] = some (commentaryText x x) ∧
    formatInt (x.laba_bersih - x.laba_bersih) = "0" := by
  refine ⟨rfl, ?_⟩
  rw [sub_self]
  rfl

/-- Claim C8: with no API key configured (`client = None`), the AI
commentary is the fixed inactive notice whatever the summary holds, and
the completion-service call count is zero. -/
theorem C8_ai_inactive (s : List FarmSummary) :
    generate_ai_commentary none s = (inactiveNotice, 0) := rfl

/-- Claim C9: seeding an empty session with AI text `T` yields exactly
the transcript `[system, assistant T]`; a user question `X` whose service
call raises leaves exactly `[system, assistant T, user X]` — the user
turn kept, no assistant turn appended — and shows an inline error. -/
theorem C9_chat_failure (T X e : String) (c : CompletionService)
    (hfail : c.respond [systemTurn, ⟨"assistant", T⟩, ⟨"user", X⟩] = .error e) :
    seedChat none T = [systemTurn, ⟨"assistant", T⟩] ∧
    handleUserMessage (some c) (seedChat none T) X
      = ([systemTurn, ⟨"assistant", T⟩, ⟨"user", X⟩],
          some ("❌ Error chat: " ++ e)) := by
  refine ⟨rfl, ?_⟩
  simp [handleUserMessage, seedChat, hfail]

/-- A completion service whose every call raises. -/
def failingService : CompletionService := ⟨fun _ => .error "boom"⟩

/-- Claim C9, instantiated with a concrete always-failing service. -/
theorem C9_chat_failure_witness :
    seedChat none "T" = [systemTurn, ⟨"assistant", "T"⟩] ∧
    handleUserMessage (some failingService) (seedChat none "T") "X"
      = ([systemTurn, ⟨"assistant", "T"⟩, ⟨"user", "X"⟩],
          some ("❌ Error chat: " ++ "boom")) :=
  C9_chat_failure "T" "X" "boom" failingService rfl

/-- Claim C10: the guard of line 127 seeds the transcript only when none
exists — an existing transcript survives any later render cycle
unchanged, so the assistant turn of the first seeding is retained whatever
AI text later cycles produce; and a later upload whose summary is
nonempty re-renders the dashboard around the untouched transcript. -/
theorem C10_transcript_seeded_once (h : Transcript) (t ai2 : String) :
    seedChat (some h) ai2 = h ∧
    seedChat (some (seedChat none t)) ai2 = [systemTurn, ⟨"assistant", t⟩] ∧
    ∀ (client : Option CompletionService) (rows : List Record),
      summary rows ≠ [] →
      ∃ s rule ai, runDashboard client rows (some h) = .dashboard s rule ai h := by
  refine ⟨rfl, rfl, fun client rows hne => ?_⟩
  match hs : summary rows with
  | [] => exact absurd hs hne
  | top :: rest =>
    refine ⟨top :: rest, commentaryText top (rest.getLastD top),
      (generate_ai_commentary client (top :: rest)).1, ?_⟩
    simp [runDashboard, hs, ruleCommentary, seedChat]

/-- Claim C10, instantiated: a transcript seeded from a first upload
survives a second render cycle on the scenario rows. -/
theorem C10_transcript_seeded_once_witness :
    seedChat (some [systemTurn, ⟨"assistant", "first"⟩]) "second"
      = [systemTurn, ⟨"assistant", "first"⟩] ∧
    seedChat (some (seedChat none "first")) "second"
      = [systemTurn, ⟨"assistant", "first"⟩] ∧
    ∀ (client : Option CompletionService) (rows : List Record),
      summary rows ≠ [] →
      ∃ s rule ai, runDashboard client rows
        (some [systemTurn, ⟨"assistant", "first"⟩])
          = .dashboard s rule ai [systemTurn, ⟨"assistant", "first"⟩] :=
  C10_transcript_seeded_once [systemTurn, ⟨"assistant", "first"⟩] "first" "second"
